import Mathlib

/-!
Shallow embedding of the Capability Probe & Diagnostic Engine of the
USB camera hardware test application (`camera_test_suite/main.py`).

Machine numbers are modelled as `ℚ` (OpenCV property values are doubles,
and every value this program manipulates is rational); pixel values are
`ℤ` with explicit `% 256` where the uint8 array arithmetic wraps.

The capture device (the Camera Control Port) is external to the source;
it is modelled as a store of property values together with a per-property
responsiveness flag (`Dev.resp`): a `set` call is honoured exactly when
the flag is true, and `get` returns the stored value.  Frame reads yield
a frame whose mean brightness is `Dev.scene` of the current device state.
-/

namespace CameraTestSuite

/-- Probe outcome, mirroring the `status` strings "PASS" / "FAIL" / "SKIP". -/
inductive Status where
  | PASS
  | FAIL
  | SKIP
deriving DecidableEq, Repr

/-- The `TestResult` dataclass of `main.py` (the `details` dict of a probe is
modelled separately, per probe, where a claim needs it). -/
structure TestResult where
  test_name : String
  status : Status
  message : String
  timestamp : String
deriving DecidableEq, Repr

/-- The camera properties the engine touches (the `cv2.CAP_PROP_*` keys). -/
inductive PropKey where
  | frameWidth
  | frameHeight
  | fps
  | exposure
  | autoExposure
  | brightness
  | gain
  | focus
  | autofocus
  | wbTemperature
  | autoWb
deriving DecidableEq, Repr

/-- The capture device's property store. -/
structure Cam where
  frameWidth : ℚ
  frameHeight : ℚ
  fps : ℚ
  exposure : ℚ
  autoExposure : ℚ
  brightness : ℚ
  gain : ℚ
  focus : ℚ
  autofocus : ℚ
  wbTemperature : ℚ
  autoWb : ℚ
deriving DecidableEq, Repr

/-- Model of the Camera Control Port: which property writes the hardware
honours, what mean frame brightness a read observes, and whether the
device is connected (`self.camera` truthy and open). -/
structure Dev where
  connected : Bool
  resp : PropKey → Bool
  scene : Cam → ℚ

def readCam (c : Cam) : PropKey → ℚ
  | .frameWidth => c.frameWidth
  | .frameHeight => c.frameHeight
  | .fps => c.fps
  | .exposure => c.exposure
  | .autoExposure => c.autoExposure
  | .brightness => c.brightness
  | .gain => c.gain
  | .focus => c.focus
  | .autofocus => c.autofocus
  | .wbTemperature => c.wbTemperature
  | .autoWb => c.autoWb

def writeCam (c : Cam) (k : PropKey) (v : ℚ) : Cam :=
  match k with
  | .frameWidth => { c with frameWidth := v }
  | .frameHeight => { c with frameHeight := v }
  | .fps => { c with fps := v }
  | .exposure => { c with exposure := v }
  | .autoExposure => { c with autoExposure := v }
  | .brightness => { c with brightness := v }
  | .gain => { c with gain := v }
  | .focus => { c with focus := v }
  | .autofocus => { c with autofocus := v }
  | .wbTemperature => { c with wbTemperature := v }
  | .autoWb => { c with autoWb := v }

/-- Probe-runner working state: the device's property store plus the trace of
every `camera.set(key, value)` call issued so far. -/
structure PState where
  cam : Cam
  trace : List (PropKey × ℚ)
deriving DecidableEq, Repr

/-- `self.camera.set(key, v)`: recorded in the trace; the store changes only
when the hardware honours writes to that key. -/
def camSet (d : Dev) (k : PropKey) (v : ℚ) (s : PState) : PState :=
  { cam := if d.resp k then writeCam s.cam k v else s.cam
    trace := s.trace ++ [(k, v)] }

/-- `self.camera.get(key)`. -/
def camGet (s : PState) (k : PropKey) : ℚ :=
  readCam s.cam k

/-- `int(x)` on a nonnegative OpenCV property value (Python `int()` truncates
toward zero; toward negative infinity on the nonnegative values used here). -/
def pyInt (q : ℚ) : ℤ :=
  if q < 0 then -((-q).floor) else q.floor

/-! ## Camera Classifier (`is_likely_usb_camera`) -/

/-- The `builtin_resolutions` list of `is_likely_usb_camera`. -/
def builtinResolutions : List (ℤ × ℤ) := [(1280, 720), (1920, 1080), (640, 480)]

/-- The `standard_ratios` list of `is_likely_usb_camera`. -/
def standardRatios : List ℚ := [16 / 9, 4 / 3, 3 / 2]

/-- `is_likely_usb_camera(self, index, width, height, fps)`: returns `true`
when the device is classified as a USB camera, `false` for built-in. -/
def is_likely_usb_camera (index : ℕ) (width height : ℤ) (fps : ℚ) : Bool :=
  if index = 0 ∧ (width, height) ∈ builtinResolutions then
    false
  else if index > 0 then
    true
  else if width ≥ 3840 ∨ height ≥ 2160 then
    true
  else
    let aspect_ratio : ℚ := if height > 0 then (width : ℚ) / (height : ℚ) else 0
    let is_standard_ratio := standardRatios.any fun r => |aspect_ratio - r| < 1 / 10
    if ¬ is_standard_ratio then
      true
    else
      decide (index > 0)

/-- The classification label attached to an enumerated camera. -/
inductive CamClass where
  | USB
  | BUILT_IN
deriving DecidableEq, Repr

/-- One enumerated camera descriptor (the `camera_info` dict of
`auto_detect_usb_cameras`). -/
structure CameraInfo where
  index : ℕ
  width : ℤ
  height : ℤ
  fps : ℚ
deriving DecidableEq, Repr

/-- The label `auto_detect_usb_cameras` derives for one descriptor. -/
def classifyCamera (c : CameraInfo) : CamClass :=
  if is_likely_usb_camera c.index c.width c.height c.fps then .USB else .BUILT_IN

/-- Labels for a whole enumerated descriptor list, in enumeration order. -/
def classifyAll (cams : List CameraInfo) : List CamClass :=
  cams.map classifyCamera

/-- The classification restricted to the inputs it actually reads:
`is_likely_usb_camera` never uses its `fps` argument. -/
def classifyByGeometry (index : ℕ) (width height : ℤ) : Bool :=
  is_likely_usb_camera index width height 0

/-! ## Resolution probe (`_test_resolution`) -/

/-- The `test_resolutions` ladder of `_test_resolution`. -/
def testResolutionLadder : List (ℤ × ℤ) := [(640, 480), (1280, 720), (1920, 1080)]

/-- One iteration of the resolution ladder: set width and height, wait,
read both back, and record the `"WxH"` string when the readback matches the
request exactly. -/
def resolutionStep (d : Dev) (acc : PState × List String) (wh : ℤ × ℤ) :
    PState × List String :=
  let s := camSet d .frameWidth (wh.1 : ℚ) acc.1
  let s := camSet d .frameHeight (wh.2 : ℚ) s
  let actual_width := pyInt (camGet s .frameWidth)
  let actual_height := pyInt (camGet s .frameHeight)
  if actual_width = wh.1 ∧ actual_height = wh.2 then
    (s, acc.2 ++ [toString wh.1 ++ "x" ++ toString wh.2])
  else
    (s, acc.2)

/-- `_test_resolution`: sweeps the three-step resolution ladder and passes
when at least one readback matched.  The device is left at whatever the last
ladder step produced; no original width/height is captured or restored. -/
def testResolution (d : Dev) (ts : String) (s0 : PState) : TestResult × PState :=
  if ¬ d.connected then
    (⟨"Resolution Test", .FAIL, "Camera not connected", ts⟩, s0)
  else
    let r := testResolutionLadder.foldl (resolutionStep d) (s0, [])
    if r.2 = [] then
      (⟨"Resolution Test", .FAIL, "No standard resolutions supported", ts⟩, r.1)
    else
      (⟨"Resolution Test", .PASS,
        "Supported resolutions: " ++ String.intercalate ", " r.2, ts⟩, r.1)

/-! ## Focus probe (`_test_focus`) -/

/-- The manual-focus position ladder `test_focus_values`. -/
def testFocusValues : List ℚ := [0, 10, 25, 50, 75, 100, 150, 200, 255]

/-- One iteration of the manual focus ladder: set the position, wait for the
focus motor, read back, and count the position as working when the readback
is within `max 5 (value * 0.1)` of the request. -/
def focusStep (d : Dev) (acc : PState × List ℚ) (v : ℚ) : PState × List ℚ :=
  let s := camSet d .focus v acc.1
  let actual_focus := camGet s .focus
  if |actual_focus - v| < max 5 (v * (1 / 10)) then
    (s, acc.2 ++ [v])
  else
    (s, acc.2)

/-- `min` of a nonempty Python list (0 when empty, a case the source never
reaches because the sweep runs only with at least two working values). -/
def listMin : List ℚ → ℚ
  | [] => 0
  | x :: xs => xs.foldl min x

/-- `max` of a nonempty Python list (0 when empty). -/
def listMax : List ℚ → ℚ
  | [] => 0
  | x :: xs => xs.foldl max x

/-- `_test_focus`: autofocus on/off toggle, manual focus ladder, optional
focus sweep between the extreme working positions, then restoration of the
initial focus position and autofocus mode. -/
def testFocus (d : Dev) (ts : String) (s0 : PState) : TestResult × PState :=
  if ¬ d.connected then
    (⟨"Focus Test", .FAIL, "Camera not connected", ts⟩, s0)
  else
    let initial_autofocus := camGet s0 .autofocus
    let initial_focus_pos := camGet s0 .focus
    -- autofocus toggle
    let s1 := camSet d .autofocus 1 s0
    let autofocus_on := camGet s1 .autofocus
    let s2 := camSet d .autofocus 0 s1
    let autofocus_off := camGet s2 .autofocus
    let autofocus_working := |autofocus_on - autofocus_off| > 1 / 10
    -- manual focus ladder (autofocus disabled first)
    let s3 := camSet d .autofocus 0 s2
    let m := testFocusValues.foldl (focusStep d) (s3, [])
    let working_focus_values := m.2
    let manual_focus_working := working_focus_values.length > 0
    -- focus sweep between extreme working positions
    let sw :=
      if manual_focus_working ∧ working_focus_values.length ≥ 2 then
        let min_focus := listMin working_focus_values
        let max_focus := listMax working_focus_values
        let t1 := camSet d .focus min_focus m.1
        let start_pos := camGet t1 .focus
        let t2 := camSet d .focus max_focus t1
        let end_pos := camGet t2 .focus
        (t2, decide (|end_pos - start_pos| > 10))
      else
        (m.1, false)
    let focus_sweep_working := sw.2
    -- restore original settings
    let s4 := camSet d .focus initial_focus_pos sw.1
    let s5 := camSet d .autofocus initial_autofocus s4
    if autofocus_working ∨ manual_focus_working then
      let capabilities :=
        (if autofocus_working then ["Autofocus"] else []) ++
        (if manual_focus_working then
          ["Manual focus (" ++ toString working_focus_values.length ++ " positions)"]
         else []) ++
        (if focus_sweep_working then ["Focus sweep"] else [])
      (⟨"Focus Test", .PASS,
        "Focus control functional: " ++ String.intercalate ", " capabilities, ts⟩, s5)
    else if initial_focus_pos > 0 ∨ initial_autofocus > 0 then
      (⟨"Focus Test", .FAIL,
        "Focus hardware detected but controls not responding", ts⟩, s5)
    else
      (⟨"Focus Test", .SKIP, "No focus control capability detected", ts⟩, s5)

/-! ## White balance probe (`_test_white_balance`) -/

/-- `_test_white_balance`: reads the colour-temperature and auto-WB
properties, toggles auto-WB to 1 and then to 0, and passes when the two
readbacks differ or the temperature property is positive.  The device is
left with auto-WB at whatever the final `set(.., 0)` produced; the initial
auto-WB value is read but never restored. -/
def testWhiteBalance (d : Dev) (ts : String) (s0 : PState) : TestResult × PState :=
  if ¬ d.connected then
    (⟨"White Balance", .FAIL, "Camera not connected", ts⟩, s0)
  else
    let wb_temp := camGet s0 .wbTemperature
    let s1 := camSet d .autoWb 1 s0
    let auto_wb_on := camGet s1 .autoWb
    let s2 := camSet d .autoWb 0 s1
    let auto_wb_off := camGet s2 .autoWb
    if auto_wb_on ≠ auto_wb_off ∨ wb_temp > 0 then
      (⟨"White Balance", .PASS, "White balance controls available", ts⟩, s2)
    else
      (⟨"White Balance", .SKIP, "White balance controls not available", ts⟩, s2)

/-! ## Exposure control probe (`_test_exposure_control`) -/

/-- `auto_exp_methods`: the auto-exposure disable codes tried before tier (a). -/
def autoExpMethods : List ℚ := [1 / 4, 0, 1, 3]

/-- The `test_exposures` ladder of tier (a). -/
def testExposures : List ℚ := [-10, -7, -4, -1, 1, 10, 50, 100, 200, 500, 1000]

/-- The `brightness_values` ladder of tier (b). -/
def brightnessValues : List ℚ := [0, 32, 64, 128, 192, 255]

/-- The `gain_values` ladder of tier (b). -/
def gainValues : List ℚ := [0, 25, 50, 100, 200]

/-- The `auto_modes` list of tier (c), value and name. -/
def autoModes : List (ℚ × String) :=
  [(1 / 4, "Manual"), (3 / 4, "Auto"), (0, "Off"), (1, "On"), (3, "Aperture Priority")]

/-- The loop that tries each auto-exposure disable code in turn, breaking as
soon as a readback lands within 0.1 of the requested code. -/
def setManualExposureLoop (d : Dev) : List ℚ → PState → PState
  | [], s => s
  | m :: rest, s =>
    let s1 := camSet d .autoExposure m s
    let result := camGet s1 .autoExposure
    if |result - m| < 1 / 10 then s1 else setManualExposureLoop d rest s1

/-- One iteration of the tier (a) exposure ladder: baseline frame, set the
exposure, read it back, test frame, and count the value as working when the
readback is within 15% (floor 1) of the request or the mean frame brightness
moved by more than 5. -/
def exposureStep (d : Dev) (acc : PState × List ℚ × Bool) (exp_val : ℚ) :
    PState × List ℚ × Bool :=
  let baseline_brightness := d.scene acc.1.cam
  let s := camSet d .exposure exp_val acc.1
  let actual_exp := camGet s .exposure
  let test_brightness := d.scene s.cam
  let brightness_change := |test_brightness - baseline_brightness|
  let property_change := |actual_exp - exp_val| < max 1 (|exp_val| * (15 / 100))
  if property_change ∨ brightness_change > 5 then
    (s, acc.2.1 ++ [exp_val], true)
  else
    (s, acc.2.1, acc.2.2)

/-- One iteration of the tier (b) brightness ladder. -/
def brightnessStep (d : Dev) (acc : PState × List ℚ) (bright_val : ℚ) :
    PState × List ℚ :=
  let baseline_avg := d.scene acc.1.cam
  let s := camSet d .brightness bright_val acc.1
  let actual_bright := camGet s .brightness
  let test_avg := d.scene s.cam
  let brightness_change := |test_avg - baseline_avg|
  if |actual_bright - bright_val| < 5 ∨ brightness_change > 3 then
    (s, acc.2 ++ [bright_val])
  else
    (s, acc.2)

/-- One iteration of the tier (b) gain ladder. -/
def gainStep (d : Dev) (acc : PState × List ℚ) (gain_val : ℚ) : PState × List ℚ :=
  let baseline_avg := d.scene acc.1.cam
  let s := camSet d .gain gain_val acc.1
  let actual_gain := camGet s .gain
  let test_avg := d.scene s.cam
  let brightness_change := |test_avg - baseline_avg|
  if |actual_gain - gain_val| < max 5 (gain_val * (1 / 10)) ∨ brightness_change > 3 then
    (s, acc.2 ++ [gain_val])
  else
    (s, acc.2)

/-- One iteration of the tier (c) auto-exposure mode loop: set the mode code
and record the readback under the mode's name. -/
def autoModeStep (d : Dev) (acc : PState × List (String × ℚ)) (mode : ℚ × String) :
    PState × List (String × ℚ) :=
  let s := camSet d .autoExposure mode.1 acc.1
  let result := camGet s .autoExposure
  (s, acc.2 ++ [(mode.2, result)])

/-- The machine-readable diagnostics of the exposure probe (the `details`
dict entries `method1_direct_exposure`, `method2_alternatives`,
`method3_auto_exposure`). -/
structure ExposureDetails where
  method1Working : Bool
  workingExposures : List ℚ
  method2Working : Bool
  workingBrightness : List ℚ
  workingGain : List ℚ
  method3Working : Bool
  modeResponses : List (String × ℚ)
deriving DecidableEq, Repr

/-- The final scoring of the exposure probe: tier (a) is credited first, then
tier (b), then tier (c); FAIL when no tier produced a measurable effect. -/
def exposureFinish (ts : String) (s : PState) (det : ExposureDetails) :
    TestResult × PState × ExposureDetails :=
  if det.method1Working then
    (⟨"Exposure Control", .PASS,
      "Direct exposure control working (" ++ toString det.workingExposures.length
        ++ " values)", ts⟩, s, det)
  else if det.method2Working then
    let alternatives :=
      (if det.workingBrightness.length > 0 then ["brightness"] else []) ++
      (if det.workingGain.length > 0 then ["gain"] else [])
    (⟨"Exposure Control", .PASS,
      "Alternative controls working: " ++ String.intercalate ", " alternatives, ts⟩,
     s, det)
  else if det.method3Working then
    (⟨"Exposure Control", .PASS, "Auto-exposure modes functional", ts⟩, s, det)
  else
    (⟨"Exposure Control", .FAIL, "No exposure control methods responsive", ts⟩, s, det)

/-- The measurement body of `_test_exposure_control`: captures the four
original property values, runs tiers (a), (b) and (c) unconditionally in that
order, and restores the four properties; returns the final device state and
the tier diagnostics. -/
def exposureMeasure (d : Dev) (s0 : PState) : PState × ExposureDetails :=
  -- initial state
  let original_exposure := camGet s0 .exposure
  let original_auto_exposure := camGet s0 .autoExposure
  let original_brightness := camGet s0 .brightness
  let original_gain := camGet s0 .gain
  -- Method 1: try to force a manual mode, then sweep the exposure ladder
  let s1 := setManualExposureLoop d autoExpMethods s0
  let m1 := testExposures.foldl (exposureStep d) (s1, [], false)
  let working_exposures := m1.2.1
  let method1_working := m1.2.2
  -- Method 2: brightness and gain ladders
  let mb := brightnessValues.foldl (brightnessStep d) (m1.1, [])
  let working_brightness := mb.2
  let mg := gainValues.foldl (gainStep d) (mb.1, [])
  let working_gain := mg.2
  let method2_working := working_brightness.length > 0 ∨ working_gain.length > 0
  -- Method 3: auto-exposure mode toggling
  let mm := autoModes.foldl (autoModeStep d) (mg.1, [])
  let mode_responses := mm.2
  let method3_working := (mode_responses.map Prod.snd).dedup.length > 1
  -- Restore original settings
  let r1 := camSet d .exposure original_exposure mm.1
  let r2 := camSet d .autoExposure original_auto_exposure r1
  let r3 := camSet d .brightness original_brightness r2
  let r4 := camSet d .gain original_gain r3
  (r4, ⟨method1_working, working_exposures, decide method2_working,
        working_brightness, working_gain, decide method3_working, mode_responses⟩)

/-- `_test_exposure_control`, with its diagnostics exposed: the measurement
body followed by the tier-ordered scoring. -/
def exposureControlRun (d : Dev) (ts : String) (s0 : PState) :
    TestResult × PState × ExposureDetails :=
  if ¬ d.connected then
    (⟨"Exposure Control", .FAIL, "Camera not connected", ts⟩, s0,
     ⟨false, [], false, [], [], false, []⟩)
  else
    exposureFinish ts (exposureMeasure d s0).1 (exposureMeasure d s0).2

/-- `_test_exposure_control` as the probe runner sees it. -/
def testExposureControl (d : Dev) (ts : String) (s0 : PState) : TestResult × PState :=
  let r := exposureControlRun d ts s0
  (r.1, r.2.1)

/-! ## Probe runner (`_run_single_test`, `_run_test_sequence`, `run_tests`) -/

/-- The fixed enumerated probe set (`test_names` of the selection panel and
the dispatch arms of `_run_single_test`). -/
def knownTestNames : List String :=
  ["Camera Detection", "Resolution Test", "Frame Rate Test",
   "Exposure Control", "Focus Test", "White Balance",
   "Image Quality", "USB Interface", "Power Consumption",
   "Capture Test Image"]

/-- The six probes whose behaviour depends on collaborators outside the
Probe Runner's device-property surface (wall-clock frame timing, pixel
statistics of captured frames, OS process queries, the image sink).  They are
external parameters: the claims settled here depend only on the fact that
each is a deterministic step from a device state to one `TestResult`. -/
structure ProbeEnv where
  detection : Dev → String → PState → TestResult × PState
  frameRate : Dev → String → PState → TestResult × PState
  imageQuality : Dev → String → PState → TestResult × PState
  usbInterface : Dev → String → PState → TestResult × PState
  powerConsumption : Dev → String → PState → TestResult × PState
  captureImage : Dev → String → PState → TestResult × PState

/-- `_run_single_test`: dispatches on the probe name; a name outside the
fixed set falls through to the `else` arm, which returns a SKIP result
rather than raising. -/
def runSingleTest (env : ProbeEnv) (d : Dev) (ts : String) (s : PState)
    (test_name : String) : TestResult × PState :=
  if test_name = "Camera Detection" then env.detection d ts s
  else if test_name = "Resolution Test" then testResolution d ts s
  else if test_name = "Frame Rate Test" then env.frameRate d ts s
  else if test_name = "Exposure Control" then testExposureControl d ts s
  else if test_name = "Focus Test" then testFocus d ts s
  else if test_name = "White Balance" then testWhiteBalance d ts s
  else if test_name = "Image Quality" then env.imageQuality d ts s
  else if test_name = "USB Interface" then env.usbInterface d ts s
  else if test_name = "Power Consumption" then env.powerConsumption d ts s
  else if test_name = "Capture Test Image" then env.captureImage d ts s
  else (⟨test_name, .SKIP, "Test not implemented", ts⟩, s)

/-- The body of `_run_test_sequence`'s `for` loop: `poll i` is the value the
shared `is_testing` flag has when iteration `i` reads it (false once the
user has requested cancellation), and `raiseAt i` is true when one of the
external calls of iteration `i` (logging, progress updates, UI refresh)
raises, sending control to the `except` handler.  Returns the recorded
results and the final device state. -/
def runSeqFrom (env : ProbeEnv) (d : Dev) (ts : String) (poll raiseAt : ℕ → Bool) :
    ℕ → List String → PState → List TestResult × PState
  | _, [], s => ([], s)
  | i, test_name :: rest, s =>
    if poll i then
      if raiseAt i then
        ([], s)
      else
        let r := runSingleTest env d ts s test_name
        let tail := runSeqFrom env d ts poll raiseAt (i + 1) rest r.2
        (r.1 :: tail.1, tail.2)
    else
      ([], s)

/-- The observable outcome of one worker-thread execution of
`_run_test_sequence`. -/
structure SeqOutcome where
  results : List TestResult
  state : PState
  is_testing : Bool
deriving Repr

/-- `_run_test_sequence`: iterates the selected probes, polling `is_testing`
once at the top of each iteration; on a false poll it breaks; on an external
exception the `except` arm logs; either way the `finally` arm clears
`is_testing`. -/
def runTestSequence (env : ProbeEnv) (d : Dev) (ts : String)
    (poll raiseAt : ℕ → Bool) (test_names : List String) (s0 : PState) : SeqOutcome :=
  let r := runSeqFrom env d ts poll raiseAt 0 test_names s0
  { results := r.1, state := r.2, is_testing := false }

/-- The interactive-surface state that `run_tests` consults and mutates. -/
structure AppState where
  camera_connected : Bool
  is_testing : Bool
  test_results : List TestResult
deriving Repr

/-- `run_tests`: rejects when no camera is connected, when `is_testing` is
already set, or when no test is selected; otherwise sets `is_testing`,
clears the recorded results, and spawns the worker (the `Bool` reports
whether a worker was spawned). -/
def runTests (app : AppState) (selected_tests : List String) : AppState × Bool :=
  if ¬ app.camera_connected then (app, false)
  else if app.is_testing then (app, false)
  else if selected_tests = [] then (app, false)
  else ({ app with is_testing := true, test_results := [] }, true)

/-! ## Result aggregation (`update_results_display`) -/

/-- The tally loop of `update_results_display`: one pass over the recorded
results, incrementing the PASS counter, else the FAIL counter, else the SKIP
counter. -/
def tallyAux (rs : List TestResult) (acc : ℕ × ℕ × ℕ) : ℕ × ℕ × ℕ :=
  rs.foldl
    (fun acc r =>
      if r.status = Status.PASS then (acc.1 + 1, acc.2.1, acc.2.2)
      else if r.status = Status.FAIL then (acc.1, acc.2.1 + 1, acc.2.2)
      else (acc.1, acc.2.1, acc.2.2 + 1))
    acc

/-- The run summary shown by `update_results_display`:
`total_tests = len(self.test_results)` and the three tally counters. -/
structure RunSummary where
  total : ℕ
  passCount : ℕ
  failCount : ℕ
  skipCount : ℕ
deriving DecidableEq, Repr

/-- The summary `update_results_display` derives from the recorded results. -/
def summaryOf (rs : List TestResult) : RunSummary :=
  let t := tallyAux rs (0, 0, 0)
  ⟨rs.length, t.1, t.2.1, t.2.2⟩

/-! ## Image-quality noise metric (`_test_image_quality`)

`noise_level = np.std(cv2.GaussianBlur(gray, (5, 5), 0) - gray)` where `gray`
is a uint8 array: the blur of a uint8 image with a 5×5 kernel and sigma 0
uses the fixed binomial kernel `[1, 4, 6, 4, 1] / 16` in each direction with
BORDER_REFLECT_101 edges and fixed-point rounding `(sum + 128) >> 8`, the
subtraction wraps modulo 256 in uint8, and `np.std` is the population
standard deviation of the wrapped values. -/

/-- A grayscale frame: dimensions plus the pixel value at each coordinate
(only coordinates below the dimensions are meaningful). -/
structure GrayFrame where
  w : ℕ
  h : ℕ
  px : ℕ → ℕ → ℤ

/-- OpenCV BORDER_REFLECT_101 index folding for an axis of length `n`. -/
def reflect101 (n : ℕ) (i : ℤ) : ℕ :=
  if n ≤ 1 then 0
  else
    let m : ℤ := 2 * ((n : ℤ) - 1)
    let j := i.emod m
    (if j < (n : ℤ) then j else m - j).toNat

/-- The binomial 5-tap kernel, offset and weight (weights are sixteenths). -/
def gauss5 : List (ℤ × ℤ) := [(-2, 1), (-1, 4), (0, 6), (1, 4), (2, 1)]

/-- One output pixel of `cv2.GaussianBlur(gray, (5, 5), 0)` on a uint8 image:
integer accumulation against the separable binomial kernel (denominator
16·16 = 256) and the fixed-point round `(sum + 128) >> 8`. -/
def blurPx (f : GrayFrame) (x y : ℕ) : ℤ :=
  let sum :=
    (gauss5.map fun di =>
      (gauss5.map fun dj =>
        di.2 * dj.2 *
          f.px (reflect101 f.w ((x : ℤ) + di.1)) (reflect101 f.h ((y : ℤ) + dj.1))).sum).sum
  (sum + 128) / 256

/-- All pixels of a per-pixel quantity, in row-major order. -/
def pixelList (f : GrayFrame) (g : ℕ → ℕ → ℚ) : List ℚ :=
  (List.range f.h).flatMap fun y => (List.range f.w).map fun x => g x y

/-- Arithmetic mean of a list of rationals (`np.mean`). -/
def listMean (l : List ℚ) : ℚ := l.sum / (l.length : ℚ)

/-- Population variance of a list of rationals (the square of `np.std`). -/
def listVar (l : List ℚ) : ℚ :=
  listMean (l.map fun v => (v - listMean l) ^ 2)

/-- One pixel of the uint8 array `cv2.GaussianBlur(gray, (5, 5), 0) - gray`:
the difference wraps modulo 256. -/
def noiseDiffU8 (f : GrayFrame) (x y : ℕ) : ℤ :=
  (blurPx f x y - f.px x y).emod 256

/-- The square of the `noise_level` the probe computes: the population
variance of the wrapped difference image. -/
def noiseVar (f : GrayFrame) : ℚ :=
  listVar (pixelList f fun x y => ((noiseDiffU8 f x y : ℤ) : ℚ))

/-- One pixel of the Gaussian blur evaluated exactly over the rationals,
with no fixed-point rounding — the idealised blur of the spec's metric. -/
def blurPxExact (f : GrayFrame) (x y : ℕ) : ℚ :=
  ((gauss5.map fun di =>
      (gauss5.map fun dj =>
        di.2 * dj.2 *
          f.px (reflect101 f.w ((x : ℤ) + di.1)) (reflect101 f.h ((y : ℤ) + dj.1))).sum).sum
    : ℤ) / 256

/-- The spec's reading of the metric: the population variance of the exact
real-valued pixelwise difference `grayscale − gaussianBlur(grayscale)`
(its square root is the stddev the spec names). -/
def noiseResidualVarSpec (f : GrayFrame) : ℚ :=
  listVar (pixelList f fun x y => (f.px x y : ℚ) - blurPxExact f x y)

/-- The uniformly constant frame of value `c`. -/
def constFrame (w h : ℕ) (c : ℤ) : GrayFrame :=
  ⟨w, h, fun _ _ => c⟩

/-- The two-pixel frame `[0, 255]` (one row). -/
def stepFrame : GrayFrame :=
  ⟨2, 1, fun x _ => if x = 0 then 0 else 255⟩

/-! ## Shared concrete fixtures -/

/-- A fully responsive device watching a static scene of mean brightness 100. -/
def devIdeal : Dev := ⟨true, fun _ => true, fun _ => 100⟩

/-- A concrete initial property store. -/
def cam0 : Cam := ⟨800, 600, 30, 5000, 3 / 4, 128, 64, 50, 1, 4500, 1⟩

/-- A concrete initial probe-runner state with an empty set-call trace. -/
def s0fix : PState := ⟨cam0, []⟩

/-- A probe environment whose external probes succeed without touching the
device (used only to instantiate universally quantified theorems). -/
def trivEnv : ProbeEnv :=
  ⟨fun _ ts s => (⟨"Camera Detection", .PASS, "", ts⟩, s),
   fun _ ts s => (⟨"Frame Rate Test", .PASS, "", ts⟩, s),
   fun _ ts s => (⟨"Image Quality", .PASS, "", ts⟩, s),
   fun _ ts s => (⟨"USB Interface", .PASS, "", ts⟩, s),
   fun _ ts s => (⟨"Power Consumption", .PASS, "", ts⟩, s),
   fun _ ts s => (⟨"Capture Test Image", .PASS, "", ts⟩, s)⟩

/-- Number of set calls on key `k` in a trace. -/
def countKey (k : PropKey) (tr : List (PropKey × ℚ)) : ℕ :=
  (tr.filter fun p => p.1 = k).length

/-! ## C7, C8: classifier -/

/-- C7: for the enumerated descriptor list
[(index 0, 1280x720), (index 1, 1920x1080), (index 2, 7680x4320)], the
classifier returns exactly the labels [BUILT_IN, USB, USB], whatever frame
rates the devices report. -/
theorem classifier_scenario_labels (f0 f1 f2 : ℚ) :
    classifyAll [⟨0, 1280, 720, f0⟩, ⟨1, 1920, 1080, f1⟩, ⟨2, 7680, 4320, f2⟩] =
      [CamClass.BUILT_IN, CamClass.USB, CamClass.USB] := by
  rfl

/-- C8: the classification is a pure function of (index, width, height): the
`fps` argument never influences the label, so any two calls with identical
index, width and height agree. -/
theorem classifier_fps_irrelevant (index : ℕ) (width height : ℤ) (fps : ℚ) :
    is_likely_usb_camera index width height fps = classifyByGeometry index width height := by
  rfl

/-! ## C3: summary consistency -/

theorem tallyAux_sum (rs : List TestResult) :
    ∀ a b c : ℕ,
      (tallyAux rs (a, b, c)).1 + (tallyAux rs (a, b, c)).2.1 +
        (tallyAux rs (a, b, c)).2.2 = a + b + c + rs.length := by
  induction rs with
  | nil => intro a b c; simp [tallyAux]
  | cons r rs ih =>
    intro a b c
    simp only [tallyAux, List.foldl_cons] at *
    by_cases h1 : r.status = Status.PASS
    · simpa [h1] using by rw [ih]; omega
    · by_cases h2 : r.status = Status.FAIL
      · simpa [h1, h2] using by rw [ih]; omega
      · simpa [h1, h2] using by rw [ih]; omega

/-- C3: after any probe run the displayed summary satisfies
`total = passCount + failCount + skipCount` and `total` equals the number of
`TestResult`s recorded in the ordered result sequence. -/
theorem summary_total_consistent (rs : List TestResult) :
    (summaryOf rs).total =
        (summaryOf rs).passCount + (summaryOf rs).failCount + (summaryOf rs).skipCount ∧
      (summaryOf rs).total = rs.length := by
  refine ⟨?_, rfl⟩
  have h := tallyAux_sum rs 0 0 0
  simp only [summaryOf]
  omega

/-! ## C9: the noise metric -/

theorem listVar_of_all_zero (l : List ℚ) (hl : ∀ v ∈ l, v = 0) : listVar l = 0 := by
  have hsum : l.sum = 0 := List.sum_eq_zero hl
  have hmean : listMean l = 0 := by simp [listMean, hsum]
  have hz : (l.map fun v => (v - listMean l) ^ 2).sum = 0 := by
    apply List.sum_eq_zero
    intro v hv
    obtain ⟨w, hw, rfl⟩ := List.mem_map.mp hv
    rw [hl w hw, hmean]
    ring
  rw [listVar, listMean, hz, zero_div]

theorem blurPx_const (w h : ℕ) (c : ℤ) (x y : ℕ) :
    blurPx (constFrame w h c) x y = c := by
  simp only [blurPx, constFrame, gauss5, List.map_cons, List.map_nil, List.sum_cons,
    List.sum_nil]
  omega

/-- C9 (amended): the probe's noise level is the population standard
deviation of the blur-minus-gray difference image computed in wrapped uint8
arithmetic; on a uniformly constant frame this is 0 (stated on the variance,
the square of the computed standard deviation). -/
theorem noise_const_frame_zero (w h : ℕ) (c : ℤ) :
    noiseVar (constFrame w h c) = 0 := by
  apply listVar_of_all_zero
  intro v hv
  simp only [pixelList, List.mem_flatMap, List.mem_map] at hv
  obtain ⟨y, -, x, -, rfl⟩ := hv
  simp only [noiseDiffU8, blurPx_const]
  simp [constFrame]
  rfl

/-- C9 (counterexample): on the two-pixel frame `[0, 255]` the computed noise
level (0.5, from the uint8 difference wrapping modulo 256) differs from the
standard deviation of the exact real-valued difference between the grayscale
frame and its Gaussian blur (127.5), so the computed noise level is not the
standard deviation of the exact pixelwise residual. -/
theorem noise_wraps_mod256 :
    Real.sqrt ((noiseVar stepFrame : ℚ) : ℝ) ≠
      Real.sqrt ((noiseResidualVarSpec stepFrame : ℚ) : ℝ) := by
  have h1 : noiseVar stepFrame = 1 / 4 := by
    norm_num [noiseVar, listVar, listMean, pixelList, stepFrame, noiseDiffU8, blurPx, gauss5,
      reflect101, List.range_succ]
  have h2 : noiseResidualVarSpec stepFrame = 65025 / 4 := by
    norm_num [noiseResidualVarSpec, listVar, listMean, pixelList, stepFrame, blurPxExact, gauss5,
      reflect101, List.range_succ]
  rw [h1, h2]
  have hlt : Real.sqrt (((1 / 4 : ℚ) : ℝ)) < Real.sqrt (((65025 / 4 : ℚ) : ℝ)) := by
    apply Real.sqrt_lt_sqrt
    · norm_num
    · norm_num
  exact ne_of_lt hlt

/-! ## C1: property restoration -/

theorem camSet_readCam (d : Dev) (k F : PropKey) (v : ℚ) (s : PState) :
    readCam (camSet d k v s).cam F =
      if k = F ∧ d.resp F = true then v else readCam s.cam F := by
  cases k <;> cases F <;>
    (simp only [camSet, writeCam, readCam]; split <;> simp_all)

theorem camSet_readCam_skip (d : Dev) {k F : PropKey} (v : ℚ) (s : PState)
    (h : d.resp F = false ∨ k ≠ F) :
    readCam (camSet d k v s).cam F = readCam s.cam F := by
  rw [camSet_readCam]
  rcases h with h | h
  · simp [h]
  · simp [h]

theorem exposureStep_fst (d : Dev) (acc : PState × List ℚ × Bool) (v : ℚ) :
    (exposureStep d acc v).1 = camSet d .exposure v acc.1 := by
  simp only [exposureStep]
  split <;> rfl

theorem brightnessStep_fst (d : Dev) (acc : PState × List ℚ) (v : ℚ) :
    (brightnessStep d acc v).1 = camSet d .brightness v acc.1 := by
  simp only [brightnessStep]
  split <;> rfl

theorem gainStep_fst (d : Dev) (acc : PState × List ℚ) (v : ℚ) :
    (gainStep d acc v).1 = camSet d .gain v acc.1 := by
  simp only [gainStep]
  split <;> rfl

theorem autoModeStep_fst (d : Dev) (acc : PState × List (String × ℚ)) (m : ℚ × String) :
    (autoModeStep d acc m).1 = camSet d .autoExposure m.1 acc.1 := rfl

theorem focusStep_fst (d : Dev) (acc : PState × List ℚ) (v : ℚ) :
    (focusStep d acc v).1 = camSet d .focus v acc.1 := by
  simp only [focusStep]
  split <;> rfl

theorem resolutionStep_fst (d : Dev) (acc : PState × List String) (wh : ℤ × ℤ) :
    (resolutionStep d acc wh).1 =
      camSet d .frameHeight (wh.2 : ℚ) (camSet d .frameWidth (wh.1 : ℚ) acc.1) := by
  simp only [resolutionStep]
  split <;> rfl

theorem foldl_readCam_eq {α β : Type} (step : β → α → β) (stT : β → PState) (F : PropKey)
    (hstep : ∀ acc a, readCam (stT (step acc a)).cam F = readCam (stT acc).cam F) :
    ∀ (l : List α) (acc : β),
      readCam (stT (l.foldl step acc)).cam F = readCam (stT acc).cam F := by
  intro l
  induction l with
  | nil => intro acc; rfl
  | cons a l ih => intro acc; rw [List.foldl_cons, ih, hstep]

theorem setManualExposureLoop_readCam (d : Dev) {F : PropKey}
    (h : d.resp F = false ∨ PropKey.autoExposure ≠ F) :
    ∀ (l : List ℚ) (s : PState),
      readCam (setManualExposureLoop d l s).cam F = readCam s.cam F := by
  intro l
  induction l with
  | nil => intro s; rfl
  | cons m rest ih =>
    intro s
    simp only [setManualExposureLoop]
    split
    · exact camSet_readCam_skip d m s h
    · rw [ih, camSet_readCam_skip d m s h]

theorem expFold_readCam (d : Dev) {F : PropKey}
    (h : d.resp F = false ∨ PropKey.exposure ≠ F)
    (l : List ℚ) (acc : PState × List ℚ × Bool) :
    readCam ((l.foldl (exposureStep d) acc).1.cam) F = readCam acc.1.cam F :=
  foldl_readCam_eq _ (fun a => a.1) F
    (fun acc v => by simp only [exposureStep_fst]; exact camSet_readCam_skip d v acc.1 h) l acc

theorem brightFold_readCam (d : Dev) {F : PropKey}
    (h : d.resp F = false ∨ PropKey.brightness ≠ F)
    (l : List ℚ) (acc : PState × List ℚ) :
    readCam ((l.foldl (brightnessStep d) acc).1.cam) F = readCam acc.1.cam F :=
  foldl_readCam_eq _ (fun a => a.1) F
    (fun acc v => by simp only [brightnessStep_fst]; exact camSet_readCam_skip d v acc.1 h) l acc

theorem gainFold_readCam (d : Dev) {F : PropKey}
    (h : d.resp F = false ∨ PropKey.gain ≠ F)
    (l : List ℚ) (acc : PState × List ℚ) :
    readCam ((l.foldl (gainStep d) acc).1.cam) F = readCam acc.1.cam F :=
  foldl_readCam_eq _ (fun a => a.1) F
    (fun acc v => by simp only [gainStep_fst]; exact camSet_readCam_skip d v acc.1 h) l acc

theorem modeFold_readCam (d : Dev) {F : PropKey}
    (h : d.resp F = false ∨ PropKey.autoExposure ≠ F)
    (l : List (ℚ × String)) (acc : PState × List (String × ℚ)) :
    readCam ((l.foldl (autoModeStep d) acc).1.cam) F = readCam acc.1.cam F :=
  foldl_readCam_eq _ (fun a => a.1) F
    (fun acc m => by simp only [autoModeStep_fst]; exact camSet_readCam_skip d m.1 acc.1 h) l acc

theorem focusFold_readCam (d : Dev) {F : PropKey}
    (h : d.resp F = false ∨ PropKey.focus ≠ F)
    (l : List ℚ) (acc : PState × List ℚ) :
    readCam ((l.foldl (focusStep d) acc).1.cam) F = readCam acc.1.cam F :=
  foldl_readCam_eq _ (fun a => a.1) F
    (fun acc v => by simp only [focusStep_fst]; exact camSet_readCam_skip d v acc.1 h) l acc

theorem exposureFinish_state (ts : String) (s : PState) (det : ExposureDetails) :
    (exposureFinish ts s det).2.1 = s := by
  unfold exposureFinish
  split
  any_goals rfl
  split
  any_goals rfl
  split <;> rfl

theorem expRestores (d : Dev) (ts : String) (s0 : PState) (F : PropKey)
    (hF : F = PropKey.exposure ∨ F = PropKey.autoExposure ∨ F = PropKey.brightness ∨
      F = PropKey.gain) :
    readCam ((testExposureControl d ts s0).2).cam F = readCam s0.cam F := by
  unfold testExposureControl exposureControlRun
  by_cases hc : d.connected
  · simp only [hc, Bool.not_true, Bool.false_eq_true, if_false, ite_false, not_true_eq_false,
      if_neg, exposureFinish_state]
    unfold exposureMeasure
    simp only [camSet_readCam]
    by_cases hr : d.resp F
    · rcases hF with rfl | rfl | rfl | rfl <;> simp [hr, camGet, readCam]
    · have hr' : d.resp F = false := by simpa using hr
      simp only [hr', Bool.false_eq_true, and_false, if_false,
        modeFold_readCam d (Or.inl hr'), gainFold_readCam d (Or.inl hr'),
        brightFold_readCam d (Or.inl hr'), expFold_readCam d (Or.inl hr'),
        setManualExposureLoop_readCam d (Or.inl hr')]
  · simp [hc]

theorem focusRestores (d : Dev) (ts : String) (s0 : PState) (F : PropKey)
    (hF : F = PropKey.focus ∨ F = PropKey.autofocus) :
    readCam ((testFocus d ts s0).2).cam F = readCam s0.cam F := by
  unfold testFocus
  by_cases hc : d.connected
  · simp only [hc, Bool.not_true, not_true_eq_false, if_false, ite_false,
      apply_ite Prod.snd, apply_ite Prod.fst, ite_self]
    rw [camSet_readCam, camSet_readCam]
    by_cases hr : d.resp F
    · rcases hF with rfl | rfl <;> simp [hr, camGet, readCam]
    · have hr' : d.resp F = false := by simpa using hr
      simp only [hr', Bool.false_eq_true, and_false, if_false]
      split
      next =>
        simp only [camSet_readCam_skip d _ _ (Or.inl hr'),
          focusFold_readCam d (Or.inl hr')]
      next =>
        simp only [focusFold_readCam d (Or.inl hr'),
          camSet_readCam_skip d _ _ (Or.inl hr')]
  · simp [hc]

/-- C1 (counterexample): the Resolution probe mutates the width/height
device properties and does not restore them: on a fully responsive device
that started at 800x600 the probe exits (with PASS) leaving the width at
the last ladder request 1920, not at its pre-probe value. -/
theorem resolution_probe_not_restored :
    (testResolution devIdeal "t" s0fix).1.status = Status.PASS ∧
    s0fix.cam.frameWidth = 800 ∧
    (testResolution devIdeal "t" s0fix).2.cam.frameWidth = 1920 ∧
    (testResolution devIdeal "t" s0fix).2.cam.frameWidth ≠ s0fix.cam.frameWidth := by
  exact ⟨by decide, by decide, by decide, by decide⟩

/-- C1 (amended): the Exposure Control and Focus probes restore every device
property they mutate (exposure, auto-exposure, brightness, gain; focus,
autofocus) to its pre-probe value on every exit of the probe — for every
device model, responsive or not, hence on FAIL outcomes too; the White
Balance and Resolution probes do not restore: auto-WB is left at the final
toggle value and the resolution at the last ladder request. -/
theorem exposure_focus_probes_restore :
    (∀ (d : Dev) (ts : String) (s0 : PState),
      readCam ((testExposureControl d ts s0).2).cam PropKey.exposure =
          readCam s0.cam PropKey.exposure ∧
      readCam ((testExposureControl d ts s0).2).cam PropKey.autoExposure =
          readCam s0.cam PropKey.autoExposure ∧
      readCam ((testExposureControl d ts s0).2).cam PropKey.brightness =
          readCam s0.cam PropKey.brightness ∧
      readCam ((testExposureControl d ts s0).2).cam PropKey.gain =
          readCam s0.cam PropKey.gain ∧
      readCam ((testFocus d ts s0).2).cam PropKey.focus =
          readCam s0.cam PropKey.focus ∧
      readCam ((testFocus d ts s0).2).cam PropKey.autofocus =
          readCam s0.cam PropKey.autofocus) ∧
    (testWhiteBalance devIdeal "t" s0fix).2.cam.autoWb ≠ s0fix.cam.autoWb ∧
    (testResolution devIdeal "t" s0fix).2.cam.frameHeight ≠ s0fix.cam.frameHeight := by
  refine ⟨fun d ts s0 => ⟨?_, ?_, ?_, ?_, ?_, ?_⟩, by decide, by decide⟩
  · exact expRestores d ts s0 _ (Or.inl rfl)
  · exact expRestores d ts s0 _ (Or.inr (Or.inl rfl))
  · exact expRestores d ts s0 _ (Or.inr (Or.inr (Or.inl rfl)))
  · exact expRestores d ts s0 _ (Or.inr (Or.inr (Or.inr rfl)))
  · exact focusRestores d ts s0 _ (Or.inl rfl)
  · exact focusRestores d ts s0 _ (Or.inr rfl)

/-! ## C2: the exposure tiers -/

theorem countKey_camSet (d : Dev) (k K : PropKey) (v : ℚ) (s : PState) :
    countKey k (camSet d K v s).trace =
      countKey k s.trace + (if K = k then 1 else 0) := by
  by_cases h : K = k <;> simp [camSet, countKey, List.filter_append, h]

theorem foldl_countKey {α β : Type} (step : β → α → β) (stT : β → PState) (K k : PropKey)
    (hstep : ∀ acc a,
      countKey k (stT (step acc a)).trace =
        countKey k (stT acc).trace + (if K = k then 1 else 0)) :
    ∀ (l : List α) (acc : β),
      countKey k (stT (l.foldl step acc)).trace =
        countKey k (stT acc).trace + (if K = k then l.length else 0) := by
  intro l
  induction l with
  | nil => intro acc; simp
  | cons a l ih =>
    intro acc
    rw [List.foldl_cons, ih, hstep]
    by_cases h : K = k <;> (simp [h]; try omega)

theorem countKey_setManualExposureLoop (d : Dev) {k : PropKey}
    (h : k ≠ PropKey.autoExposure) :
    ∀ (l : List ℚ) (s : PState),
      countKey k (setManualExposureLoop d l s).trace = countKey k s.trace := by
  intro l
  induction l with
  | nil => intro s; rfl
  | cons m rest ih =>
    intro s
    simp only [setManualExposureLoop]
    split
    · rw [countKey_camSet]
      simp [Ne.symm h]
    · rw [ih, countKey_camSet]
      simp [Ne.symm h]

theorem countKey_expFold (d : Dev) (k : PropKey) (l : List ℚ)
    (acc : PState × List ℚ × Bool) :
    countKey k ((l.foldl (exposureStep d) acc).1.trace) =
      countKey k acc.1.trace + (if PropKey.exposure = k then l.length else 0) :=
  foldl_countKey _ (fun a => a.1) _ k
    (fun acc v => by simp only [exposureStep_fst]; rw [countKey_camSet]) l acc

theorem countKey_brightFold (d : Dev) (k : PropKey) (l : List ℚ) (acc : PState × List ℚ) :
    countKey k ((l.foldl (brightnessStep d) acc).1.trace) =
      countKey k acc.1.trace + (if PropKey.brightness = k then l.length else 0) :=
  foldl_countKey _ (fun a => a.1) _ k
    (fun acc v => by simp only [brightnessStep_fst]; rw [countKey_camSet]) l acc

theorem countKey_gainFold (d : Dev) (k : PropKey) (l : List ℚ) (acc : PState × List ℚ) :
    countKey k ((l.foldl (gainStep d) acc).1.trace) =
      countKey k acc.1.trace + (if PropKey.gain = k then l.length else 0) :=
  foldl_countKey _ (fun a => a.1) _ k
    (fun acc v => by simp only [gainStep_fst]; rw [countKey_camSet]) l acc

theorem countKey_modeFold (d : Dev) (k : PropKey) (l : List (ℚ × String))
    (acc : PState × List (String × ℚ)) :
    countKey k ((l.foldl (autoModeStep d) acc).1.trace) =
      countKey k acc.1.trace + (if PropKey.autoExposure = k then l.length else 0) :=
  foldl_countKey _ (fun a => a.1) _ k
    (fun acc m => by simp only [autoModeStep_fst]; rw [countKey_camSet]) l acc

theorem exposureFinish_det (ts : String) (s : PState) (det : ExposureDetails) :
    (exposureFinish ts s det).2.2 = det := by
  unfold exposureFinish
  split
  any_goals rfl
  split
  any_goals rfl
  split <;> rfl

theorem exposureFinish_status (ts : String) (s : PState) (det : ExposureDetails) :
    (exposureFinish ts s det).1.status =
      if det.method1Working ∨ det.method2Working ∨ det.method3Working then Status.PASS
      else Status.FAIL := by
  unfold exposureFinish
  by_cases h1 : det.method1Working <;> by_cases h2 : det.method2Working <;>
    by_cases h3 : det.method3Working <;> simp [h1, h2, h3]

theorem exposureFinish_msg1 (ts : String) (s : PState) (det : ExposureDetails)
    (h : det.method1Working = true) :
    (exposureFinish ts s det).1.message =
      "Direct exposure control working (" ++ toString det.workingExposures.length
        ++ " values)" := by
  unfold exposureFinish
  simp [h]

theorem exposureFinish_msg2 (ts : String) (s : PState) (det : ExposureDetails)
    (h1 : det.method1Working = false) (h2 : det.method2Working = true) :
    (exposureFinish ts s det).1.message =
      "Alternative controls working: " ++ String.intercalate ", "
        ((if det.workingBrightness.length > 0 then ["brightness"] else []) ++
          (if det.workingGain.length > 0 then ["gain"] else [])) := by
  unfold exposureFinish
  simp [h1, h2]

theorem exposureFinish_msg3 (ts : String) (s : PState) (det : ExposureDetails)
    (h1 : det.method1Working = false) (h2 : det.method2Working = false)
    (h3 : det.method3Working = true) :
    (exposureFinish ts s det).1.message = "Auto-exposure modes functional" := by
  unfold exposureFinish
  simp [h1, h2, h3]

theorem exposureControlRun_state (d : Dev) (ts : String) (s0 : PState)
    (hc : d.connected = true) :
    (exposureControlRun d ts s0).2.1 = (exposureMeasure d s0).1 := by
  unfold exposureControlRun
  simp [hc, exposureFinish_state]

theorem exposureControlRun_det (d : Dev) (ts : String) (s0 : PState)
    (hc : d.connected = true) :
    (exposureControlRun d ts s0).2.2 = (exposureMeasure d s0).2 := by
  unfold exposureControlRun
  simp [hc, exposureFinish_det]

theorem exposureControlRun_result (d : Dev) (ts : String) (s0 : PState)
    (hc : d.connected = true) :
    (exposureControlRun d ts s0).1 =
      (exposureFinish ts (exposureMeasure d s0).1 (exposureMeasure d s0).2).1 := by
  unfold exposureControlRun
  simp [hc]

theorem exposureMeasure_trace_counts (d : Dev) (s0 : PState) (h0 : s0.trace = []) :
    countKey PropKey.gain (exposureMeasure d s0).1.trace = 6 ∧
    countKey PropKey.brightness (exposureMeasure d s0).1.trace = 7 := by
  unfold exposureMeasure
  constructor
  · simp only [countKey_camSet, countKey_modeFold, countKey_gainFold, countKey_brightFold,
      countKey_expFold,
      countKey_setManualExposureLoop d (by decide : PropKey.gain ≠ PropKey.autoExposure)]
    rw [h0]
    decide
  · simp only [countKey_camSet, countKey_modeFold, countKey_gainFold, countKey_brightFold,
      countKey_expFold,
      countKey_setManualExposureLoop d (by decide : PropKey.brightness ≠ PropKey.autoExposure)]
    rw [h0]
    decide

/-- C2 (amended): tiers (b) and (c) are not guarded on tier (a)'s outcome —
every run of the connected exposure probe issues all of tier (b)'s gain
writes (5 ladder values plus the restore write, 6 in total) and brightness
writes (6 plus the restore, 7 in total), and tier (c)'s mode writes (the
"Auto" code 3/4 is always set); the fallback order exists only in the
scoring: PASS is credited to tier (a) when it worked, else tier (b), else
tier (c), and FAIL means no tier worked. -/
theorem exposure_tiers_score_in_order (d : Dev) (ts : String) (s0 : PState)
    (hc : d.connected = true) (h0 : s0.trace = []) :
    countKey PropKey.gain (exposureControlRun d ts s0).2.1.trace = 6 ∧
    countKey PropKey.brightness (exposureControlRun d ts s0).2.1.trace = 7 ∧
    ((exposureControlRun d ts s0).1.status =
      if (exposureControlRun d ts s0).2.2.method1Working ∨
          (exposureControlRun d ts s0).2.2.method2Working ∨
          (exposureControlRun d ts s0).2.2.method3Working then Status.PASS
      else Status.FAIL) ∧
    ((exposureControlRun d ts s0).2.2.method1Working = true →
      (exposureControlRun d ts s0).1.message =
        "Direct exposure control working (" ++
          toString (exposureControlRun d ts s0).2.2.workingExposures.length
          ++ " values)") ∧
    ((exposureControlRun d ts s0).2.2.method1Working = false →
      (exposureControlRun d ts s0).2.2.method2Working = true →
      (exposureControlRun d ts s0).1.message =
        "Alternative controls working: " ++ String.intercalate ", "
          ((if (exposureControlRun d ts s0).2.2.workingBrightness.length > 0 then
              ["brightness"] else []) ++
            (if (exposureControlRun d ts s0).2.2.workingGain.length > 0 then
              ["gain"] else []))) ∧
    ((exposureControlRun d ts s0).2.2.method1Working = false →
      (exposureControlRun d ts s0).2.2.method2Working = false →
      (exposureControlRun d ts s0).2.2.method3Working = true →
      (exposureControlRun d ts s0).1.message = "Auto-exposure modes functional") := by
  rw [exposureControlRun_state d ts s0 hc, exposureControlRun_det d ts s0 hc,
    exposureControlRun_result d ts s0 hc]
  refine ⟨(exposureMeasure_trace_counts d s0 h0).1, (exposureMeasure_trace_counts d s0 h0).2,
    ?_, ?_, ?_, ?_⟩
  · exact exposureFinish_status ts _ _
  · exact fun h1 => exposureFinish_msg1 ts _ _ h1
  · exact fun h1 h2 => exposureFinish_msg2 ts _ _ h1 h2
  · exact fun h1 h2 h3 => exposureFinish_msg3 ts _ _ h1 h2 h3

/-- Witness for `exposure_tiers_score_in_order` at the concrete ideal device
and initial state. -/
theorem exposure_tiers_score_in_order_witness :
    devIdeal.connected = true ∧ s0fix.trace = [] ∧
      countKey PropKey.gain (exposureControlRun devIdeal "t" s0fix).2.1.trace = 6 :=
  ⟨rfl, rfl, (exposure_tiers_score_in_order devIdeal "t" s0fix rfl rfl).1⟩

/-- C2 (counterexample): on a fully responsive device tier (a) succeeds
(`method1Working`, and the probe result is the tier (a) PASS), yet the
set-call trace still contains tier (b)'s brightness write of 32 and gain
write of 25 and tier (c)'s auto-exposure mode write of 0.75 — the later
tiers mutate device properties even though the earlier tier succeeded. -/
theorem exposure_tiers_all_run :
    (exposureControlRun devIdeal "t" s0fix).2.2.method1Working = true ∧
    (exposureControlRun devIdeal "t" s0fix).1.status = Status.PASS ∧
    (PropKey.brightness, (32 : ℚ)) ∈ (exposureControlRun devIdeal "t" s0fix).2.1.trace ∧
    (PropKey.gain, (25 : ℚ)) ∈ (exposureControlRun devIdeal "t" s0fix).2.1.trace ∧
    (PropKey.autoExposure, (3 / 4 : ℚ)) ∈ (exposureControlRun devIdeal "t" s0fix).2.1.trace := by
  refine ⟨?_, ?_, ?_, ?_, ?_⟩ <;>
    norm_num [exposureControlRun, exposureMeasure, exposureFinish, setManualExposureLoop,
      exposureStep, brightnessStep, gainStep, autoModeStep, camSet, camGet, readCam, writeCam,
      devIdeal, s0fix, cam0, autoExpMethods, testExposures, brightnessValues, gainValues,
      autoModes, abs_eq_max_neg, max_def]

/-! ## C4, C5, C6, C10: the probe runner -/

/-- The schedule on which no external call of the loop body raises. -/
def noRaise : ℕ → Bool := fun _ => false

theorem runSeqFrom_allTrue_length (env : ProbeEnv) (d : Dev) (ts : String) :
    ∀ (tests : List String) (i : ℕ) (s : PState),
      (runSeqFrom env d ts (fun _ => true) noRaise i tests s).1.length = tests.length := by
  intro tests
  induction tests with
  | nil => intro i s; rfl
  | cons t rest ih => intro i s; simp [runSeqFrom, noRaise, ih]

/-- If the `is_testing` flag reads true at the polls before the first `k`
probes and false at poll `k`, the run records exactly the results the
uncancelled run would have produced for the first `k` probes, and ends in
the device state of a complete run of exactly the first `k` probes. -/
theorem runSeqFrom_cancel (env : ProbeEnv) (d : Dev) (ts : String) (poll : ℕ → Bool) :
    ∀ (tests : List String) (k i : ℕ) (s : PState),
      (∀ j, j < k → poll (i + j) = true) → poll (i + k) = false →
      (runSeqFrom env d ts poll noRaise i tests s).1 =
          ((runSeqFrom env d ts (fun _ => true) noRaise i tests s).1).take k ∧
        (runSeqFrom env d ts poll noRaise i tests s).2 =
          (runSeqFrom env d ts (fun _ => true) noRaise i (tests.take k) s).2 := by
  intro tests
  induction tests with
  | nil =>
    intro k i s hb ha
    simp [runSeqFrom]
  | cons t rest ih =>
    intro k i s hb ha
    cases k with
    | zero =>
      have hp : poll i = false := by simpa using ha
      simp [runSeqFrom, hp]
    | succ k' =>
      have hp : poll i = true := by simpa using hb 0 (Nat.succ_pos k')
      have hb' : ∀ j, j < k' → poll (i + 1 + j) = true := fun j hj => by
        rw [show i + 1 + j = i + (j + 1) by omega]
        exact hb (j + 1) (by omega)
      have ha' : poll (i + 1 + k') = false := by
        rw [show i + 1 + k' = i + (k' + 1) by omega]
        exact ha
      obtain ⟨hres, hstate⟩ := ih k' (i + 1) (runSingleTest env d ts s t).2 hb' ha'
      constructor
      · simp [runSeqFrom, hp, noRaise, hres]
      · simp [runSeqFrom, hp, noRaise, hstate]

/-- C4: if cancellation is requested after probe `k` completes and before
probe `k+1` begins (the flag reads true at the first `k` polls and false at
poll `k`, `k < N`), the run stops and records exactly the first `k`
ProbeResults of the uncancelled run, in the caller-specified order. -/
theorem cancellation_yields_first_k (env : ProbeEnv) (d : Dev) (ts : String)
    (poll : ℕ → Bool) (tests : List String) (s0 : PState) (k : ℕ)
    (hbefore : ∀ j, j < k → poll j = true) (hat : poll k = false)
    (hk : k < tests.length) :
    (runTestSequence env d ts poll noRaise tests s0).results =
        ((runTestSequence env d ts (fun _ => true) noRaise tests s0).results).take k ∧
      (runTestSequence env d ts poll noRaise tests s0).results.length = k := by
  have h := runSeqFrom_cancel env d ts poll tests k 0 s0
    (fun j hj => by simpa using hbefore j hj) (by simpa using hat)
  refine ⟨h.1, ?_⟩
  rw [show (runTestSequence env d ts poll noRaise tests s0).results =
      (runSeqFrom env d ts poll noRaise 0 tests s0).1 from rfl, h.1]
  rw [List.length_take, runSeqFrom_allTrue_length]
  omega

/-- Witness for `cancellation_yields_first_k`: three probes, cancellation
after the second. -/
theorem cancellation_yields_first_k_witness :
    (∀ j, j < 2 → (fun i => decide (i < 2)) j = true) ∧
      (fun i => decide (i < 2)) 2 = false ∧ 2 < (["A", "B", "C"] : List String).length ∧
      (runTestSequence trivEnv devIdeal "t" (fun i => decide (i < 2)) noRaise
          ["A", "B", "C"] s0fix).results.length = 2 := by
  refine ⟨fun j hj => decide_eq_true hj, rfl, by decide, ?_⟩
  exact (cancellation_yields_first_k trivEnv devIdeal "t" (fun i => decide (i < 2))
    ["A", "B", "C"] s0fix 2 (fun j hj => decide_eq_true hj) rfl (by decide)).2

/-- C6 (amended): the `is_testing` flag is polled once per probe, at the top
of each loop iteration of `_run_test_sequence`, and nowhere inside the
resolution/exposure/focus sub-step ladders; hence a cancellation observed
from poll `k` on leaves the run in exactly the device state (property store
and set-call trace) of a complete run of the first `k` probes — probes are
atomic with respect to cancellation, which takes effect only at the next
probe boundary. -/
theorem cancellation_probe_atomic (env : ProbeEnv) (d : Dev) (ts : String)
    (poll : ℕ → Bool) (tests : List String) (s0 : PState) (k : ℕ)
    (hbefore : ∀ j, j < k → poll j = true) (hat : poll k = false) :
    (runTestSequence env d ts poll noRaise tests s0).state =
      (runTestSequence env d ts (fun _ => true) noRaise (tests.take k) s0).state :=
  (runSeqFrom_cancel env d ts poll tests k 0 s0
    (fun j hj => by simpa using hbefore j hj) (by simpa using hat)).2

/-- Witness for `cancellation_probe_atomic`: cancellation after the first of
two probes leaves exactly the state of a complete one-probe run. -/
theorem cancellation_probe_atomic_witness :
    (∀ j, j < 1 → (fun i => decide (i < 1)) j = true) ∧
      (fun i => decide (i < 1)) 1 = false ∧
      (runTestSequence trivEnv devIdeal "t" (fun i => decide (i < 1)) noRaise
          ["White Balance", "Focus Test"] s0fix).state =
        (runTestSequence trivEnv devIdeal "t" (fun _ => true) noRaise
          (["White Balance", "Focus Test"].take 1) s0fix).state := by
  refine ⟨fun j hj => decide_eq_true hj, rfl, ?_⟩
  exact cancellation_probe_atomic trivEnv devIdeal "t" (fun i => decide (i < 1))
    ["White Balance", "Focus Test"] s0fix 1 (fun j hj => decide_eq_true hj) rfl

/-- C6 (counterexample): with cancellation requested while the Resolution
probe is running (the flag reads true at poll 0, before the probe, and false
from then on), the probe still issues all three ladder width writes and all
three height writes — were the flag polled once per sub-step iteration, at
most the first iteration's writes (one of each) could occur. -/
theorem resolution_ladder_ignores_cancel :
    countKey PropKey.frameWidth
        (runTestSequence trivEnv devIdeal "t" (fun i => decide (i = 0)) noRaise
          ["Resolution Test"] s0fix).state.trace = 3 ∧
      countKey PropKey.frameHeight
        (runTestSequence trivEnv devIdeal "t" (fun i => decide (i = 0)) noRaise
          ["Resolution Test"] s0fix).state.trace = 3 ∧
      (runTestSequence trivEnv devIdeal "t" (fun i => decide (i = 0)) noRaise
          ["Resolution Test"] s0fix).results.length = 1 := by
  exact ⟨by decide, by decide, by decide⟩

/-- C5 (amended): a probe name outside the fixed ten-name set is not an
error propagated to the caller: `_run_single_test` falls through to its
`else` arm and returns a normal ProbeResult with status SKIP and message
"Test not implemented", which the sequence loop records like any other
result. -/
theorem unknown_probe_skip_result (env : ProbeEnv) (d : Dev) (ts : String)
    (s : PState) (name : String) (hn : name ∉ knownTestNames) :
    runSingleTest env d ts s name = (⟨name, .SKIP, "Test not implemented", ts⟩, s) ∧
      (runTestSequence env d ts (fun _ => true) noRaise [name] s).results =
        [⟨name, .SKIP, "Test not implemented", ts⟩] := by
  have h1 : ¬ name = "Camera Detection" := fun e => hn (by rw [e]; decide)
  have h2 : ¬ name = "Resolution Test" := fun e => hn (by rw [e]; decide)
  have h3 : ¬ name = "Frame Rate Test" := fun e => hn (by rw [e]; decide)
  have h4 : ¬ name = "Exposure Control" := fun e => hn (by rw [e]; decide)
  have h5 : ¬ name = "Focus Test" := fun e => hn (by rw [e]; decide)
  have h6 : ¬ name = "White Balance" := fun e => hn (by rw [e]; decide)
  have h7 : ¬ name = "Image Quality" := fun e => hn (by rw [e]; decide)
  have h8 : ¬ name = "USB Interface" := fun e => hn (by rw [e]; decide)
  have h9 : ¬ name = "Power Consumption" := fun e => hn (by rw [e]; decide)
  have h10 : ¬ name = "Capture Test Image" := fun e => hn (by rw [e]; decide)
  have hrun : runSingleTest env d ts s name =
      (⟨name, .SKIP, "Test not implemented", ts⟩, s) := by
    simp [runSingleTest, h1, h2, h3, h4, h5, h6, h7, h8, h9, h10]
  exact ⟨hrun, by simp [runTestSequence, runSeqFrom, noRaise, hrun]⟩

/-- Witness for `unknown_probe_skip_result` at a concrete unknown name. -/
theorem unknown_probe_skip_result_witness :
    "Thermal Test" ∉ knownTestNames ∧
      runSingleTest trivEnv devIdeal "w" s0fix "Thermal Test" =
        (⟨"Thermal Test", .SKIP, "Test not implemented", "w"⟩, s0fix) :=
  ⟨by decide, (unknown_probe_skip_result trivEnv devIdeal "w" s0fix "Thermal Test"
    (by decide)).1⟩

/-- C5 (counterexample): invoking the runner with the out-of-set name
"Bogus Probe" does not propagate a setup error to the caller: it returns —
and the sequence records — an ordinary ProbeResult{SKIP, "Test not
implemented"}, so the recorded result list of such a run is not empty. -/
theorem unknown_probe_recorded_skip :
    runSingleTest trivEnv devIdeal "t" s0fix "Bogus Probe" =
        (⟨"Bogus Probe", Status.SKIP, "Test not implemented", "t"⟩, s0fix) ∧
      (runTestSequence trivEnv devIdeal "t" (fun _ => true) noRaise
          ["Bogus Probe"] s0fix).results =
        [⟨"Bogus Probe", Status.SKIP, "Test not implemented", "t"⟩] := by
  exact ⟨rfl, rfl⟩

/-- C10: the worker clears `is_testing` on every termination path — normal
completion, cancellation break, or an exception escaping the loop (any
`raiseAt` schedule) — and `run_tests` refuses to start (returning the state
unchanged and spawning nothing) whenever `is_testing` is still set, so a
fresh run is never blocked by a stale flag and at most one sequence is
started at a time. -/
theorem is_testing_cleared_and_guard :
    (∀ (env : ProbeEnv) (d : Dev) (ts : String) (poll raiseAt : ℕ → Bool)
        (tests : List String) (s0 : PState),
        (runTestSequence env d ts poll raiseAt tests s0).is_testing = false) ∧
    (∀ (app : AppState) (sel : List String),
        app.is_testing = true → runTests app sel = (app, false)) := by
  constructor
  · intro env d ts poll raiseAt tests s0
    rfl
  · intro app sel h
    unfold runTests
    by_cases hb : app.camera_connected <;> simp [hb, h]

/-- Witness for `is_testing_cleared_and_guard`: a start attempt while a run
is marked active is rejected. -/
theorem is_testing_cleared_and_guard_witness :
    (⟨true, true, []⟩ : AppState).is_testing = true ∧
      runTests ⟨true, true, []⟩ ["Focus Test"] = (⟨true, true, []⟩, false) :=
  ⟨rfl, is_testing_cleared_and_guard.2 ⟨true, true, []⟩ ["Focus Test"] rfl⟩

end CameraTestSuite
